import Mathlib

/-!
Shallow embedding of the flightlogger persistence layer
(src/storage/data-logic.go, package storage).

The relational store behind gorm is modelled as an explicit `Store` value:
each table is a list of rows plus a MySQL-style auto-increment counter.
Every primitive store call that the Go code inspects for an error takes an
explicit `Bool` fault flag: `true` means the underlying store rejected that
single statement (connection failure, constraint violation, ...), `false`
means the statement executed normally.  Fault flags let us state claims
about both the happy path and the error paths of the same function.

Struct definitions (DbCountryPart, DbCoordinates, DbLocation, DbUser,
DbCredentials) and the map/demap helpers live in files of this repository
that are not part of src/; they are modelled from the spec where needed and
marked as such.  Coordinates are float64 in Go; no arithmetic is ever done
on them in this component (they are only stored and copied), so they are
embedded as rationals.
-/

namespace Flightlog

/-- CountryPart row. Modelled from the spec: "CountryPart: {id, areaName,
postalCode, countryPart}", gorm primary key `ID`. -/
structure DbCountryPart where
  ID : Nat
  AreaName : String
  PostalCode : String
  CountryPart : String
deriving Repr, DecidableEq

/-- Coordinates row. Modelled from the spec: "Coordinates: {id, longitude,
latitude}"; the source spells the second field `Lattitude`. -/
structure DbCoordinates where
  ID : Nat
  Longitude : ℚ
  Lattitude : ℚ
deriving Repr, DecidableEq

/-- Location row / Go struct. Modelled from the spec: "Location: {id, name,
coordinatesRef → Coordinates.id, countryPartRef → CountryPart.id}" plus the
embedded association structs the Go code manipulates (`mappedLocation.Coordinates`,
`mappedLocation.CountryPart`) and the gorm soft-delete marker (`DeletedAt`),
here a Bool `Deleted`. -/
structure DbLocation where
  ID : Nat
  Name : String
  CoordinatesReferer : Nat
  CountrypartReferer : Nat
  Coordinates : DbCoordinates
  CountryPart : DbCountryPart
  Deleted : Bool
deriving Repr, DecidableEq

/-- Base user row. Modelled from the spec (users are pass-through
persistence; only the identifier matters for the claims). -/
structure DbUser where
  ID : Nat
  Email : String
deriving Repr, DecidableEq

/-- Credentials row, referencing its user via `UserID`
(src sets `mappedCreds.UserID = mappedUser.ID`). -/
structure DbCredentials where
  ID : Nat
  UserID : Nat
  PasswordHash : String
  PasswordSalt : String
deriving Repr, DecidableEq

/-- common.Location. Modelled from the spec: a Location value with embedded
coordinate and country-part fields plus the resolved sub-entity identifiers
(UpdateLocation reads `location.AreaName`, `location.PostalCode`,
`location.CountryPart` directly off it, and the spec requires the returned
Location to carry its coordinates reference). -/
structure Location where
  ID : Nat
  Name : String
  Longitude : ℚ
  Lattitude : ℚ
  CoordinatesID : Nat
  AreaName : String
  PostalCode : String
  CountryPart : String
  CountryPartID : Nat
deriving Repr, DecidableEq

/-- common.User. Modelled from the spec: a user value with optional
password material (UpdateUser checks hash and salt against nil). -/
structure User where
  ID : Nat
  Email : String
  PasswordHash : Option String
  PasswordSalt : Option String
deriving Repr, DecidableEq

/-- Underlying gorm error kinds: `recordNotFound` (gorm.ErrRecordNotFound,
the spec's NotFoundError) and `storeRejected` (any other store failure, the
spec's PersistenceError cause). -/
inductive GormErr where
  | recordNotFound
  | storeRejected
deriving Repr, DecidableEq

/-- An error value as returned to callers: the underlying gorm kind plus
the stack of `errors.Wrap` context messages, outermost first. -/
structure DbError where
  kind : GormErr
  msgs : List String
deriving Repr, DecidableEq

/-- A bare gorm error, not yet wrapped. -/
def ofGorm (e : GormErr) : DbError := { kind := e, msgs := [] }

/-- errors.Wrap: nil stays nil, otherwise the message is pushed on top. -/
def wrapErr (msg : String) : Option DbError → Option DbError
  | none => none
  | some e => some { e with msgs := msg :: e.msgs }

/-- The relational store: one list of rows per table touched by the claims,
plus a MySQL auto-increment counter per table. -/
structure Store where
  countryParts : List DbCountryPart
  coordinates : List DbCoordinates
  locations : List DbLocation
  users : List DbUser
  credentials : List DbCredentials
  nextCountryPartID : Nat
  nextCoordinatesID : Nat
  nextLocationID : Nat
  nextUserID : Nat
  nextCredentialsID : Nat
deriving Repr, DecidableEq

/-- Rows as stored: the embedded association structs are not columns of
db_locations, so persisting a DbLocation stores only its columns and the
embedded structs read back zeroed (gorm's First does not preload). -/
def zeroCoordinates : DbCoordinates := { ID := 0, Longitude := 0, Lattitude := 0 }

/-- The all-blank CountryPart value. -/
def zeroCountryPart : DbCountryPart :=
  { ID := 0, AreaName := "", PostalCode := "", CountryPart := "" }

/-- The zero-value DbLocation (what a Go `var existingLocation DbLocation`
holds before anything is loaded into it). -/
def zeroDbLocation : DbLocation :=
  { ID := 0, Name := "", CoordinatesReferer := 0, CountrypartReferer := 0,
    Coordinates := zeroCoordinates, CountryPart := zeroCountryPart, Deleted := false }

/-- Strip the association structs off a DbLocation, keeping its columns:
this is what actually lands in the db_locations table. -/
def stripAssoc (l : DbLocation) : DbLocation :=
  { l with Coordinates := zeroCoordinates, CountryPart := zeroCountryPart }

/-- gorm `Create` on db_countryparts: on success the record gets the
auto-increment identifier when its ID is zero (MySQL keeps an explicit
nonzero ID and bumps the counter past it) and is appended; `none` models a
rejected insert. -/
def gormCreateCountryPart (s : Store) (fault : Bool) (r : DbCountryPart) :
    Option (DbCountryPart × Store) :=
  if fault then none
  else
    let r := if r.ID = 0 then { r with ID := s.nextCountryPartID } else r
    some (r, { s with countryParts := s.countryParts ++ [r],
                      nextCountryPartID := max s.nextCountryPartID (r.ID + 1) })

/-- gorm `Create` on db_coordinates. -/
def gormCreateCoordinates (s : Store) (fault : Bool) (r : DbCoordinates) :
    Option (DbCoordinates × Store) :=
  if fault then none
  else
    let r := if r.ID = 0 then { r with ID := s.nextCoordinatesID } else r
    some (r, { s with coordinates := s.coordinates ++ [r],
                      nextCoordinatesID := max s.nextCoordinatesID (r.ID + 1) })

/-- gorm `Create` on db_locations (stores the columns only). -/
def gormCreateLocation (s : Store) (fault : Bool) (l : DbLocation) :
    Option (DbLocation × Store) :=
  if fault then none
  else
    let l := if l.ID = 0 then { l with ID := s.nextLocationID } else l
    some (l, { s with locations := s.locations ++ [stripAssoc l],
                      nextLocationID := max s.nextLocationID (l.ID + 1) })

/-- gorm `Create` on db_users. -/
def gormCreateUser (s : Store) (fault : Bool) (u : DbUser) :
    Option (DbUser × Store) :=
  if fault then none
  else
    let u := if u.ID = 0 then { u with ID := s.nextUserID } else u
    some (u, { s with users := s.users ++ [u],
                      nextUserID := max s.nextUserID (u.ID + 1) })

/-- gorm `Create` on db_credentials. -/
def gormCreateCredentials (s : Store) (fault : Bool) (c : DbCredentials) :
    Option (DbCredentials × Store) :=
  if fault then none
  else
    let c := if c.ID = 0 then { c with ID := s.nextCredentialsID } else c
    some (c, { s with credentials := s.credentials ++ [c],
                      nextCredentialsID := max s.nextCredentialsID (c.ID + 1) })

/-- gorm `First(&loc, ID)` on db_locations: the first live (not
soft-deleted) row with the given primary key, `recordNotFound` when there
is none, `storeRejected` on a store fault. -/
def gormFirstLocation (s : Store) (fault : Bool) (ID : Nat) :
    Except GormErr DbLocation :=
  if fault then .error .storeRejected
  else
    match s.locations.find? (fun l => l.ID == ID && !l.Deleted) with
    | some l => .ok l
    | none => .error .recordNotFound

/-- gorm `Model(&loc).Related(&coordinates, "Coordinates")`: fetches the
coordinates row referenced by the location's `CoordinatesReferer`. -/
def gormRelatedCoordinates (s : Store) (fault : Bool) (loc : DbLocation) :
    Except GormErr DbCoordinates :=
  if fault then .error .storeRejected
  else
    match s.coordinates.find? (fun c => c.ID == loc.CoordinatesReferer) with
    | some c => .ok c
    | none => .error .recordNotFound

/-- gorm `Save(&loc)`: with a nonzero primary key this is an UPDATE of the
row with that key (updating an absent row touches nothing and is not an
error); with a zero key gorm falls back to an INSERT. -/
def gormSaveLocation (s : Store) (fault : Bool) (l : DbLocation) : Option Store :=
  if fault then none
  else if l.ID = 0 then
    some { s with locations := s.locations ++ [stripAssoc { l with ID := s.nextLocationID }],
                  nextLocationID := s.nextLocationID + 1 }
  else
    some { s with locations :=
      s.locations.map (fun x => if x.ID == l.ID then stripAssoc l else x) }

/-- gorm `Delete(&loc)` on a model with a DeletedAt column: a soft delete,
marking rows with the record's primary key as deleted and retaining them. -/
def gormDeleteLocation (s : Store) (fault : Bool) (l : DbLocation) : Option Store :=
  if fault then none
  else
    some { s with locations :=
      s.locations.map (fun x => if x.ID == l.ID then { x with Deleted := true } else x) }

/-- Modelled from the spec: the missing `isEmpty` method on DbCountryPart.
"'Empty' CountryPart (all fields blank) is a sentinel meaning 'no
country-part association'". -/
def DbCountryPart.isEmpty (p : DbCountryPart) : Bool :=
  p.AreaName == "" && p.PostalCode == "" && p.CountryPart == ""

/-- Modelled from the spec: the missing `mapLocation` helper.  The input
"Location value with embedded coordinate and country-part fields; no
pre-existing identifier" becomes the Go DbLocation struct with zero
identifiers, its Coordinates sub-record built from the longitude/latitude
fields and its CountryPart sub-record from the triple. -/
def mapLocation (l : Location) : DbLocation :=
  { ID := 0, Name := l.Name,
    CoordinatesReferer := 0, CountrypartReferer := 0,
    Coordinates := { ID := 0, Longitude := l.Longitude, Lattitude := l.Lattitude },
    CountryPart := { ID := 0, AreaName := l.AreaName, PostalCode := l.PostalCode,
                     CountryPart := l.CountryPart },
    Deleted := false }

/-- Modelled from the spec: the missing `demapLocation` helper, the inverse
mapping back to a common.Location carrying the generated identifier and the
resolved sub-entity identifiers. -/
def demapLocation (l : DbLocation) : Location :=
  { ID := l.ID, Name := l.Name,
    Longitude := l.Coordinates.Longitude, Lattitude := l.Coordinates.Lattitude,
    CoordinatesID := l.CoordinatesReferer,
    AreaName := l.CountryPart.AreaName, PostalCode := l.CountryPart.PostalCode,
    CountryPart := l.CountryPart.CountryPart,
    CountryPartID := l.CountrypartReferer }

def demapLocations (ls : List DbLocation) : List Location := ls.map demapLocation

/-- Modelled from the spec: the missing `mapUser` helper, splitting a
common.User into its base row and its credentials row. -/
def mapUser (u : User) : DbUser × DbCredentials :=
  ({ ID := 0, Email := u.Email },
   { ID := 0, UserID := 0,
     PasswordHash := u.PasswordHash.getD "",
     PasswordSalt := u.PasswordSalt.getD "" })

/-- Modelled from the spec: the missing `demapUser` helper. -/
def demapUser (u : DbUser) : User :=
  { ID := u.ID, Email := u.Email, PasswordHash := none, PasswordSalt := none }

/-- strings.ToLower / the lower-casing a case-insensitive MySQL collation
applies, character by character. -/
def lowerStr (s : String) : String := ⟨s.data.map Char.toLower⟩

/-- MySQL LIKE matching over characters: a literal character compares
case-insensitively (utf8 general case-insensitive collation, the default
for the `charset=utf8` connection the source opens), `_` matches any one
character and a `%` wildcard matches any run of characters. -/
def likeMatchCI : (pat : List Char) → List Char → Bool
  | [], s => s.isEmpty
  | p :: ps, s =>
    if p = '%' then
      s.tails.any (likeMatchCI ps)
    else
      match s with
      | [] => false
      | c :: s' => (p = '_' || p.toLower == c.toLower) && likeMatchCI ps s'

/-- A full `column LIKE pattern` comparison on strings. -/
def mysqlLike (pat : String) (s : String) : Bool := likeMatchCI pat.data s.data

/-- Row matching for the dedup lookup: the exact triple comparison in the
WHERE clause of getCountryPart. -/
def matchesTriple (part r : DbCountryPart) : Bool :=
  r.AreaName == part.AreaName && r.PostalCode == part.PostalCode &&
    r.CountryPart == part.CountryPart

/-- gorm `Where(triple).First(&dbPart)` on db_countryparts. -/
def gormFirstCountryPartByTriple (s : Store) (fault : Bool) (part : DbCountryPart) :
    Except GormErr DbCountryPart :=
  if fault then .error .storeRejected
  else
    match s.countryParts.find? (matchesTriple part) with
    | some r => .ok r
    | none => .error .recordNotFound

/-- gorm `Where("name Like ?", lower(name)+"%").Find(&locations)`: all live
rows whose name matches the pattern; an empty result is not an error. -/
def gormFindLocationsByName (s : Store) (fault : Bool) (pattern : String) :
    Except GormErr (List DbLocation) :=
  if fault then .error .storeRejected
  else
    .ok (s.locations.filter (fun l => !l.Deleted && mysqlLike pattern l.Name))

/-! ## The storage operations (src/storage/data-logic.go) -/

/-- getCountryPart (data-logic.go:255-264): looks the triple up and returns
the row's identifier, or 0 on ANY error — a missing row and a failed query
are indistinguishable to the caller. -/
def getCountryPart (s : Store) (lookupFault : Bool) (part : DbCountryPart) : Nat :=
  match gormFirstCountryPartByTriple s lookupFault part with
  | .error _ => 0
  | .ok dbPart => dbPart.ID

/-- resolveCountryPart (data-logic.go:231-252): creates a countrypart if
needed, or returns an existing one to prevent duplicates; returns the
identifier together with the store after any insert. -/
def resolveCountryPart (s : Store) (lookupFault insertFault : Bool)
    (part : DbCountryPart) : Nat × Store :=
  if !part.isEmpty then
    let comboID := getCountryPart s lookupFault part
    if comboID = 0 then
      match gormCreateCountryPart s insertFault part with
      | none => (0, s)
      | some (part, s') => (part.ID, s')
    else
      (comboID, s)
  else
    (0, s)

/-- Fault flags for the four store statements CreateLocation issues. -/
structure CreateLocationFaults where
  coordInsert : Bool
  cpLookup : Bool
  cpInsert : Bool
  locInsert : Bool
deriving Repr, DecidableEq

def noCreateFaults : CreateLocationFaults :=
  { coordInsert := false, cpLookup := false, cpInsert := false, locInsert := false }

/-- CreateLocation (data-logic.go:204-228): stores the coordinates first,
resolves the country part, wires both foreign keys and stores the location
row.  Returns the (location, error) pair of the Go function together with
the resulting store. -/
def CreateLocation (s : Store) (f : CreateLocationFaults) (location : Location) :
    (Location × Option DbError) × Store :=
  let mappedLocation := mapLocation location
  match gormCreateCoordinates s f.coordInsert mappedLocation.Coordinates with
  | none =>
      ((location, wrapErr "Unable to store coordinates" (some (ofGorm .storeRejected))), s)
  | some (coord, s1) =>
      let mappedLocation := { mappedLocation with Coordinates := coord }
      let r := resolveCountryPart s1 f.cpLookup f.cpInsert mappedLocation.CountryPart
      let partID := r.1
      let s2 := r.2
      let mappedLocation := { mappedLocation with
        CoordinatesReferer := mappedLocation.Coordinates.ID,
        CountrypartReferer := partID }
      match gormCreateLocation s2 f.locInsert mappedLocation with
      | none =>
          ((location, wrapErr "Could not create the location" (some (ofGorm .storeRejected))), s2)
      | some (created, s3) => ((demapLocation created, none), s3)

/-- Fault flags for the store statements UpdateLocation issues. -/
structure UpdateLocationFaults where
  first : Bool
  cpLookup : Bool
  cpInsert : Bool
  related : Bool
  save : Bool
deriving Repr, DecidableEq

def noUpdateFaults : UpdateLocationFaults :=
  { first := false, cpLookup := false, cpInsert := false, related := false, save := false }

/-- UpdateLocation (data-logic.go:267-298).  The error of the initial
`First` is discarded, so a missing row leaves `existingLocation` at its Go
zero value.  The local `coordinates` variable (lines 281-292) is only read
from and assigned to, never saved, so it has no effect on the store; the
`Related` call it is loaded by can still fail and abort the update.  Only
the country-part reference of the existing row is changed before `Save`. -/
def UpdateLocation (s : Store) (f : UpdateLocationFaults) (ID : Nat)
    (location : Location) : (Location × Option DbError) × Store :=
  let existingLocation :=
    match gormFirstLocation s f.first ID with
    | .ok l => l
    | .error _ => zeroDbLocation
  let newCountryPart : DbCountryPart :=
    { ID := 0, AreaName := location.AreaName, PostalCode := location.PostalCode,
      CountryPart := location.CountryPart }
  let r := resolveCountryPart s f.cpLookup f.cpInsert newCountryPart
  let partID := r.1
  let s1 := r.2
  match gormRelatedCoordinates s1 f.related existingLocation with
  | .error e => ((location, some (ofGorm e)), s1)
  | .ok _ =>
      let existingLocation := { existingLocation with CountrypartReferer := partID }
      match gormSaveLocation s1 f.save existingLocation with
      | none =>
          ((demapLocation existingLocation,
            wrapErr "Unable to update a user" (some (ofGorm .storeRejected))), s1)
      | some s2 => ((demapLocation existingLocation, none), s2)

/-- DeleteLocation (data-logic.go:301-316): loads the row, fails when it is
absent, soft-deletes it otherwise. -/
def DeleteLocation (s : Store) (firstFault deleteFault : Bool) (ID : Nat) :
    Option DbError × Store :=
  match gormFirstLocation s firstFault ID with
  | .error e =>
      (wrapErr "Cannot delete a user we cannot find"
        (wrapErr "Unable to get location" (some (ofGorm e))), s)
  | .ok loc =>
      let loc := { loc with ID := ID }
      match gormDeleteLocation s deleteFault loc with
      | none => (some (ofGorm .storeRejected), s)
      | some s1 => (none, s1)

/-- LocationSearchByName (data-logic.go:319-330): prefix search with a
lower-cased pattern; `nil, wrapped error` on a store failure, the demapped
rows otherwise. -/
def LocationSearchByName (s : Store) (fault : Bool) (name : String) :
    List Location × Option DbError :=
  match gormFindLocationsByName s fault (lowerStr name ++ "%") with
  | .error e => ([], wrapErr "Unable to find locations" (some (ofGorm e)))
  | .ok locations => (demapLocations locations, none)

/-- GetLocation (data-logic.go:333-343): First by identifier, wrapped error
on failure (with the zero-value record demapped), the row otherwise. -/
def GetLocation (s : Store) (fault : Bool) (ID : Nat) : Location × Option DbError :=
  match gormFirstLocation s fault ID with
  | .error e =>
      (demapLocation zeroDbLocation, wrapErr "Unable to get location" (some (ofGorm e)))
  | .ok loc => (demapLocation loc, none)

/-- CreateUser (data-logic.go:96-115): creates the base user row, then the
credentials row; the error of the credentials insert is checked into an
empty branch and discarded. -/
def CreateUser (s : Store) (userFault credFault : Bool) (user : User) :
    (User × Option DbError) × Store :=
  let m := mapUser user
  match gormCreateUser s userFault m.1 with
  | none => ((user, some (ofGorm .storeRejected)), s)
  | some (mappedUser, s1) =>
      let mappedCreds := { m.2 with UserID := mappedUser.ID }
      match gormCreateCredentials s1 credFault mappedCreds with
      | none => ((demapUser mappedUser, none), s1)
      | some (_, s2) => ((demapUser mappedUser, none), s2)

/-! ## Store well-formedness and concrete stores for witnesses -/

/-- Store well-formedness: auto-increment counters start at 1, every stored
identifier is positive and below its table's counter, and identifiers are
strictly increasing down each table (so they are unique). -/
def Store.WF (s : Store) : Prop :=
  1 ≤ s.nextCountryPartID ∧ 1 ≤ s.nextCoordinatesID ∧ 1 ≤ s.nextLocationID ∧
  (∀ r ∈ s.countryParts, 1 ≤ r.ID ∧ r.ID < s.nextCountryPartID) ∧
  (∀ r ∈ s.coordinates, 1 ≤ r.ID ∧ r.ID < s.nextCoordinatesID) ∧
  (∀ l ∈ s.locations, 1 ≤ l.ID ∧ l.ID < s.nextLocationID) ∧
  s.countryParts.Pairwise (fun a b => a.ID < b.ID) ∧
  s.coordinates.Pairwise (fun a b => a.ID < b.ID) ∧
  s.locations.Pairwise (fun a b => a.ID < b.ID)

instance (s : Store) : Decidable s.WF := by
  unfold Store.WF
  infer_instance

/-- The freshly migrated, empty store. -/
def emptyStore : Store :=
  { countryParts := [], coordinates := [], locations := [],
    users := [], credentials := [],
    nextCountryPartID := 1, nextCoordinatesID := 1, nextLocationID := 1,
    nextUserID := 1, nextCredentialsID := 1 }

/-- Case-insensitive prefix comparison of strings: the form of name
matching LocationSearchByName actually implements. -/
def ciPrefix (t s : String) : Bool :=
  (t.data.map Char.toLower).isPrefixOf (s.data.map Char.toLower)

/-- The spec's example triple {"Oslo","0150","East"}, as an input value. -/
def osloPart : DbCountryPart :=
  { ID := 0, AreaName := "Oslo", PostalCode := "0150", CountryPart := "East" }

/-- The same triple as a stored row with identifier 1. -/
def osloPartRow : DbCountryPart :=
  { ID := 1, AreaName := "Oslo", PostalCode := "0150", CountryPart := "East" }

/-- A store already holding the Oslo triple. -/
def storeWithOslo : Store :=
  { emptyStore with countryParts := [osloPartRow], nextCountryPartID := 2 }

/-- A sample location input with the Oslo triple. -/
def sampleLocationInput : Location :=
  { ID := 0, Name := "Voss", Longitude := 10, Lattitude := 60, CoordinatesID := 0,
    AreaName := "Oslo", PostalCode := "0150", CountryPart := "East", CountryPartID := 0 }

/-- A stored coordinates row for the sample location. -/
def coordRow1 : DbCoordinates := { ID := 1, Longitude := 10, Lattitude := 60 }

/-- A stored location row named "Oslo Vest" owning `coordRow1`. -/
def locRow1 : DbLocation :=
  { ID := 1, Name := "Oslo Vest", CoordinatesReferer := 1, CountrypartReferer := 0,
    Coordinates := zeroCoordinates, CountryPart := zeroCountryPart, Deleted := false }

/-- A store holding one live location "Oslo Vest" and its coordinates. -/
def storeOsloVest : Store :=
  { emptyStore with coordinates := [coordRow1], locations := [locRow1],
                    nextCoordinatesID := 2, nextLocationID := 2 }

/-! ## Helper lemmas -/

lemma find?_append_of_none {α : Type} (p : α → Bool) (l1 l2 : List α)
    (h : l1.find? p = none) : (l1 ++ l2).find? p = l2.find? p := by
  induction l1 with
  | nil => simp
  | cons a l ih =>
    cases hpa : p a with
    | true => simp [List.find?_cons, hpa] at h
    | false =>
      simp only [List.find?_cons, hpa] at h
      simpa [List.find?_cons, hpa] using ih h

/-- find? by a key that the predicate pins down returns the member with
that key when keys are strictly increasing along the list. -/
lemma find?_keyed {α : Type} (key : α → Nat) (p : α → Bool) (L : List α)
    (hp : L.Pairwise (fun a b => key a < key b)) (x : α) (hx : x ∈ L)
    (hpx : p x = true) (hkey : ∀ y, p y = true → key y = key x) :
    L.find? p = some x := by
  induction L with
  | nil => cases hx
  | cons a L ih =>
    rcases List.pairwise_cons.mp hp with ⟨ha, hL⟩
    rcases List.mem_cons.mp hx with rfl | hxL
    · simp [List.find?_cons, hpx]
    · have hpa : p a = false := by
        cases hq : p a with
        | false => rfl
        | true =>
          have h1 : key a = key x := hkey a hq
          have h2 : key a < key x := ha x hxL
          omega
      simp only [List.find?_cons, hpa]
      exact ih hL hxL

lemma char_toLower_idem (c : Char) : c.toLower.toLower = c.toLower := by
  unfold Char.toLower
  by_cases h : c.toNat ≥ 65 ∧ c.toNat ≤ 90
  · rw [if_pos h]
    have hv : (c.toNat + 32).isValidChar := Or.inl (by omega)
    have ht : (Char.ofNat (c.toNat + 32)).toNat = c.toNat + 32 := by
      simp only [Char.toNat] at hv ⊢
      simp only [Char.ofNat]
      rw [dif_pos hv]
      rfl
    rw [if_neg]
    rw [ht]
    omega
  · rw [if_neg h, if_neg h]

/-- Matching a wildcard-free pattern extended with a trailing `%` is
exactly a case-insensitive prefix test. -/
lemma likeMatchCI_pct (s : List Char) : likeMatchCI ['%'] s = true := by
  unfold likeMatchCI
  rw [if_pos rfl, List.any_eq_true]
  exact ⟨[], by simp [List.mem_tails], by decide⟩

lemma likeMatchCI_pref (p : List Char) (hw : ∀ ch ∈ p, ch ≠ '%' ∧ ch ≠ '_') :
    ∀ s : List Char,
      likeMatchCI (p ++ ['%']) s = (p.map Char.toLower).isPrefixOf (s.map Char.toLower) := by
  induction p with
  | nil =>
    intro s
    simp [likeMatchCI_pct s, List.isPrefixOf]
  | cons c p ih =>
    intro s
    have hc := hw c (List.mem_cons_self c p)
    have hw' : ∀ ch ∈ p, ch ≠ '%' ∧ ch ≠ '_' :=
      fun ch h => hw ch (List.mem_cons_of_mem _ h)
    cases s with
    | nil => simp [likeMatchCI, hc.1, hc.2, List.isPrefixOf]
    | cons d s' =>
      simp [likeMatchCI, hc.1, hc.2, ih hw' s', List.isPrefixOf]

/-- resolveCountryPart returns 0 and leaves the store alone on the empty
sentinel, whatever the fault flags (no statement is issued). -/
lemma resolveCountryPart_empty (s : Store) (lf insf : Bool) (part : DbCountryPart)
    (h : part.isEmpty = true) : resolveCountryPart s lf insf part = (0, s) := by
  unfold resolveCountryPart
  simp [h]

/-- resolveCountryPart only ever touches the countryparts table. -/
lemma resolveCountryPart_frame (s : Store) (lf insf : Bool) (part : DbCountryPart) :
    (resolveCountryPart s lf insf part).2.coordinates = s.coordinates ∧
    (resolveCountryPart s lf insf part).2.locations = s.locations ∧
    (resolveCountryPart s lf insf part).2.users = s.users ∧
    (resolveCountryPart s lf insf part).2.credentials = s.credentials ∧
    (resolveCountryPart s lf insf part).2.nextCoordinatesID = s.nextCoordinatesID ∧
    (resolveCountryPart s lf insf part).2.nextLocationID = s.nextLocationID := by
  by_cases he : part.isEmpty
  · simp [resolveCountryPart, he]
  · by_cases hc : getCountryPart s lf part = 0
    · cases insf with
      | true => simp [resolveCountryPart, gormCreateCountryPart, he, hc]
      | false => simp [resolveCountryPart, gormCreateCountryPart, he, hc]
    · simp [resolveCountryPart, he, hc]

/-- The outcome of resolveCountryPart depends only on the countryparts
table and its counter. -/
lemma resolveCountryPart_congr (s t : Store) (lf insf : Bool) (part : DbCountryPart)
    (h1 : s.countryParts = t.countryParts)
    (h2 : s.nextCountryPartID = t.nextCountryPartID) :
    (resolveCountryPart s lf insf part).1 = (resolveCountryPart t lf insf part).1 ∧
    (resolveCountryPart s lf insf part).2.countryParts =
      (resolveCountryPart t lf insf part).2.countryParts ∧
    (resolveCountryPart s lf insf part).2.nextCountryPartID =
      (resolveCountryPart t lf insf part).2.nextCountryPartID := by
  have hg : getCountryPart s lf part = getCountryPart t lf part := by
    unfold getCountryPart gormFirstCountryPartByTriple
    rw [h1]
  by_cases he : part.isEmpty
  · rw [resolveCountryPart_empty s lf insf part he,
      resolveCountryPart_empty t lf insf part he]
    exact ⟨rfl, h1, h2⟩
  · by_cases hc : getCountryPart t lf part = 0
    · cases insf with
      | true => simp [resolveCountryPart, gormCreateCountryPart, he, hg, hc, h1, h2]
      | false => simp [resolveCountryPart, gormCreateCountryPart, he, hg, hc, h1, h2]
    · simp [resolveCountryPart, he, hg, hc, h1, h2]

/-- A no-fault resolveCountryPart that finds a row with a nonzero
identifier returns it and leaves the store alone. -/
lemma resolveCountryPart_found (s : Store) (part r : DbCountryPart)
    (hne : part.isEmpty = false) (hfind : s.countryParts.find? (matchesTriple part) = some r)
    (hr : r.ID ≠ 0) :
    resolveCountryPart s false false part = (r.ID, s) := by
  unfold resolveCountryPart getCountryPart gormFirstCountryPartByTriple
  simp [hne, hfind, hr]

/-- A no-fault resolveCountryPart that finds nothing inserts the triple
with the next fresh identifier. -/
lemma resolveCountryPart_notfound (s : Store) (part : DbCountryPart)
    (hne : part.isEmpty = false) (hid : part.ID = 0)
    (hfind : s.countryParts.find? (matchesTriple part) = none) :
    resolveCountryPart s false false part =
      (s.nextCountryPartID,
       { s with countryParts :=
                  s.countryParts ++ [{ part with ID := s.nextCountryPartID }],
                nextCountryPartID := s.nextCountryPartID + 1 }) := by
  unfold resolveCountryPart getCountryPart gormFirstCountryPartByTriple
    gormCreateCountryPart
  simp [hne, hfind, hid, Nat.max_def]

lemma matchesTriple_self (part : DbCountryPart) (n : Nat) :
    matchesTriple part { part with ID := n } = true := by
  simp [matchesTriple]

/-- A successful gorm Save on db_locations leaves the coordinates table
alone. -/
lemma gormSaveLocation_coordinates (s : Store) (fault : Bool) (l : DbLocation)
    (s' : Store) (h : gormSaveLocation s fault l = some s') :
    s'.coordinates = s.coordinates := by
  unfold gormSaveLocation at h
  split at h
  · simp at h
  · split at h <;> (injection h with h; subst h; rfl)

/-- UpdateLocation never writes to the coordinates table: whatever the
input, the identifier and the fault pattern, the stored coordinates are
exactly those of the initial store. -/
lemma UpdateLocation_coordinates_frame (s : Store) (f : UpdateLocationFaults)
    (ID : Nat) (location : Location) :
    (UpdateLocation s f ID location).2.coordinates = s.coordinates := by
  have hfr := (resolveCountryPart_frame s f.cpLookup f.cpInsert
    { ID := 0, AreaName := location.AreaName, PostalCode := location.PostalCode,
      CountryPart := location.CountryPart }).1
  unfold UpdateLocation
  dsimp only
  split
  · simpa using hfr
  · split
    · simpa using hfr
    · rename_i s2 heq
      have h2 := gormSaveLocation_coordinates _ _ _ _ heq
      show s2.coordinates = s.coordinates
      rw [h2]
      simpa using hfr

/-- The LIKE filter LocationSearchByName builds is a case-insensitive
prefix comparison, provided the search term holds no LIKE wildcard. -/
lemma mysqlLike_ciPrefix (name : String)
    (hw : ∀ ch ∈ name.data.map Char.toLower, ch ≠ '%' ∧ ch ≠ '_') (x : String) :
    mysqlLike (lowerStr name ++ "%") x = ciPrefix name x := by
  unfold mysqlLike ciPrefix lowerStr
  have hdata : ((⟨name.data.map Char.toLower⟩ : String) ++ "%").data =
      name.data.map Char.toLower ++ ['%'] := rfl
  rw [hdata]
  rw [likeMatchCI_pref _ hw x.data]
  congr 1
  rw [List.map_map]
  exact List.map_congr_left (fun c _ => char_toLower_idem c)

/-! ## Claims -/

/-- Claim C3: for every CountryPart value that is the empty sentinel (all
fields blank), resolveCountryPart returns 0 immediately and leaves the
store untouched — no row is inserted, and the result does not depend on
the store contents or on the outcome of any lookup or insert statement
(none is issued). -/
theorem C3_empty_sentinel (s : Store) (lookupFault insertFault : Bool)
    (part : DbCountryPart) (h : part.isEmpty = true) :
    resolveCountryPart s lookupFault insertFault part = (0, s) :=
  resolveCountryPart_empty s lookupFault insertFault part h

theorem C3_empty_sentinel_witness :
    zeroCountryPart.isEmpty = true ∧
    resolveCountryPart emptyStore true true zeroCountryPart = (0, emptyStore) :=
  ⟨by decide, C3_empty_sentinel emptyStore true true zeroCountryPart (by decide)⟩

/-- Claim C6: for a non-empty triple with no matching row in the store, a
failing insert makes resolveCountryPart return 0 with the store unchanged
— exactly the same result as for the empty sentinel, so the caller cannot
distinguish "no country part supplied" from "insert failed". -/
theorem C6_silent_insert_failure (s : Store) (part : DbCountryPart)
    (hne : part.isEmpty = false)
    (habsent : ∀ r ∈ s.countryParts, matchesTriple part r = false) :
    resolveCountryPart s false true part = (0, s) ∧
    resolveCountryPart s false true part =
      resolveCountryPart s false false
        { part with AreaName := "", PostalCode := "", CountryPart := "" } := by
  have hfind : s.countryParts.find? (matchesTriple part) = none :=
    List.find?_eq_none.mpr (by intro r hr; simp [habsent r hr])
  have h1 : resolveCountryPart s false true part = (0, s) := by
    unfold resolveCountryPart getCountryPart gormFirstCountryPartByTriple
      gormCreateCountryPart
    simp [hne, hfind]
  have h2 : resolveCountryPart s false false
      { part with AreaName := "", PostalCode := "", CountryPart := "" } = (0, s) :=
    resolveCountryPart_empty s false false _ (by simp [DbCountryPart.isEmpty])
  exact ⟨h1, h1.trans h2.symm⟩

theorem C6_silent_insert_failure_witness :
    osloPart.isEmpty = false ∧
    (∀ r ∈ emptyStore.countryParts, matchesTriple osloPart r = false) ∧
    resolveCountryPart emptyStore false true osloPart = (0, emptyStore) :=
  ⟨by decide, by decide,
   (C6_silent_insert_failure emptyStore osloPart (by decide) (by decide)).1⟩

/-- Claim C9: getCountryPart collapses every lookup error to 0, and as a
consequence a lookup that fails for a reason other than absence makes
resolveCountryPart insert a fresh row even though a matching row already
exists — the no-duplicate invariant only survives executions whose lookup
queries succeed, concurrency aside. -/
theorem C9_lookup_conflation :
    (∀ (s : Store) (part : DbCountryPart), getCountryPart s true part = 0) ∧
    (∀ (s : Store) (part : DbCountryPart),
      part.isEmpty = false →
      (∃ r ∈ s.countryParts, matchesTriple part r = true) →
      (resolveCountryPart s true false part).2.countryParts.countP (matchesTriple part) =
        s.countryParts.countP (matchesTriple part) + 1 ∧
      2 ≤ (resolveCountryPart s true false part).2.countryParts.countP (matchesTriple part)) := by
  constructor
  · intro s part
    unfold getCountryPart gormFirstCountryPartByTriple
    simp
  · intro s part hne hex
    have hres : (resolveCountryPart s true false part).2.countryParts =
        s.countryParts ++
          [if part.ID = 0 then { part with ID := s.nextCountryPartID } else part] := by
      unfold resolveCountryPart getCountryPart gormFirstCountryPartByTriple
        gormCreateCountryPart
      simp [hne]
    have hone : (List.countP (matchesTriple part)
        [if part.ID = 0 then { part with ID := s.nextCountryPartID } else part]) = 1 := by
      split <;> simp [matchesTriple]
    have hpos : 0 < s.countryParts.countP (matchesTriple part) := by
      rcases hex with ⟨r, hr, hm⟩
      exact List.countP_pos_iff.mpr ⟨r, hr, hm⟩
    rw [hres, List.countP_append, hone]
    omega

theorem C9_lookup_conflation_witness :
    getCountryPart storeWithOslo true osloPart = 0 ∧
    osloPart.isEmpty = false ∧
    (∃ r ∈ storeWithOslo.countryParts, matchesTriple osloPart r = true) ∧
    2 ≤ (resolveCountryPart storeWithOslo true false osloPart).2.countryParts.countP
          (matchesTriple osloPart) :=
  ⟨C9_lookup_conflation.1 storeWithOslo osloPart, by decide, by decide,
   (C9_lookup_conflation.2 storeWithOslo osloPart (by decide) (by decide)).2⟩

/-- Claim C1: resolving the same non-empty triple twice in sequence with no
faults returns the same identifier both times, and afterwards exactly one
row matching the triple is in the store (given the lookup-before-insert
invariant held before: at most one matching row, identifiers positive). -/
theorem C1_dedup_idempotent (s : Store) (part : DbCountryPart)
    (hne : part.isEmpty = false) (hid : part.ID = 0)
    (hctr : 1 ≤ s.nextCountryPartID)
    (hids : ∀ r ∈ s.countryParts, r.ID ≠ 0)
    (hdup : s.countryParts.countP (matchesTriple part) ≤ 1) :
    (resolveCountryPart s false false part).1 =
      (resolveCountryPart (resolveCountryPart s false false part).2 false false part).1 ∧
    (resolveCountryPart (resolveCountryPart s false false part).2 false false
        part).2.countryParts.countP (matchesTriple part) = 1 := by
  cases hfind : s.countryParts.find? (matchesTriple part) with
  | some r =>
    have hrmem := List.mem_of_find?_eq_some hfind
    have hrmatch := List.find?_some hfind
    have hrid : r.ID ≠ 0 := hids r hrmem
    have h1 := resolveCountryPart_found s part r hne hfind hrid
    have hpos : 0 < s.countryParts.countP (matchesTriple part) :=
      List.countP_pos_iff.mpr ⟨r, hrmem, hrmatch⟩
    have hsnd : (resolveCountryPart s false false part).2 = s := by rw [h1]
    constructor
    · rw [hsnd]
    · rw [hsnd, hsnd]
      show s.countryParts.countP (matchesTriple part) = 1
      omega
  | none =>
    have h1 := resolveCountryPart_notfound s part hne hid hfind
    have hzero : s.countryParts.countP (matchesTriple part) = 0 :=
      List.countP_eq_zero.mpr (by
        intro r hr
        have := List.find?_eq_none.mp hfind r hr
        simpa using this)
    have hfind2 :
        (s.countryParts ++ [{ part with ID := s.nextCountryPartID }]).find?
          (matchesTriple part) = some { part with ID := s.nextCountryPartID } := by
      rw [find?_append_of_none _ _ _ hfind]
      simp [List.find?_cons, matchesTriple_self]
    have hnz : ({ part with ID := s.nextCountryPartID } : DbCountryPart).ID ≠ 0 := by
      show s.nextCountryPartID ≠ 0
      omega
    have h2 := resolveCountryPart_found
      { s with countryParts := s.countryParts ++ [{ part with ID := s.nextCountryPartID }],
               nextCountryPartID := s.nextCountryPartID + 1 }
      part { part with ID := s.nextCountryPartID } hne (by exact hfind2) hnz
    have hsnd : (resolveCountryPart s false false part).2 =
        { s with countryParts := s.countryParts ++ [{ part with ID := s.nextCountryPartID }],
                 nextCountryPartID := s.nextCountryPartID + 1 } := by rw [h1]
    have hfst : (resolveCountryPart s false false part).1 = s.nextCountryPartID := by
      rw [h1]
    constructor
    · rw [hsnd, h2, hfst]
    · rw [hsnd, h2]
      show (s.countryParts ++
        [{ part with ID := s.nextCountryPartID }]).countP (matchesTriple part) = 1
      simp [List.countP_append, hzero, matchesTriple_self]

/-- Claim C10: CreateUser reports success whenever the base-user insert
succeeds, whether or not the credentials insert does: with a failing
credentials insert the error is still `none`, the credentials table is
left unchanged, and the returned user is the same as in a fully
successful run (which also returns no error). -/
theorem C10_create_user_swallows_credentials_error (s : Store) (user : User) :
    (CreateUser s false true user).1.2 = none ∧
    (CreateUser s false true user).2.credentials = s.credentials ∧
    (CreateUser s false true user).2.users =
      s.users ++ [{ ID := s.nextUserID, Email := user.Email }] ∧
    (CreateUser s false true user).1.1 = (CreateUser s false false user).1.1 ∧
    (CreateUser s false false user).1.2 = none := by
  unfold CreateUser gormCreateUser gormCreateCredentials mapUser demapUser
  simp

/-- Claim C4 (code-behavior evidence): UpdateLocation on an identifier
with no Location row does NOT fail with a NotFoundError on the Location
and does NOT leave the store untouched: the discarded First error leaves a
zero-value record, the input's triple is still resolved — inserting a
CountryPart row — and the call then aborts on the coordinates lookup of
the zero-value record, returning that lookup's raw record-not-found
error.  Evaluated at identifier 1 over the empty store with the Oslo
sample input. -/
theorem C4_update_missing_location_behavior :
    (UpdateLocation emptyStore noUpdateFaults 1 sampleLocationInput).1.2 =
      some { kind := GormErr.recordNotFound, msgs := [] } ∧
    (UpdateLocation emptyStore noUpdateFaults 1 sampleLocationInput).2.countryParts =
      [osloPartRow] ∧
    (UpdateLocation emptyStore noUpdateFaults 1 sampleLocationInput).2.locations = [] := by
  decide

theorem C1_dedup_idempotent_witness :
    osloPart.isEmpty = false ∧ osloPart.ID = 0 ∧ 1 ≤ emptyStore.nextCountryPartID ∧
    ((resolveCountryPart emptyStore false false osloPart).1 =
      (resolveCountryPart (resolveCountryPart emptyStore false false osloPart).2
        false false osloPart).1 ∧
     (resolveCountryPart (resolveCountryPart emptyStore false false osloPart).2
        false false osloPart).2.countryParts.countP (matchesTriple osloPart) = 1) :=
  ⟨by decide, by decide, by decide,
   C1_dedup_idempotent emptyStore osloPart (by decide) (by decide) (by decide)
     (by decide) (by decide)⟩

/-- Claim C7: DeleteLocation on an identifier with no stored row returns a
NotFoundError (the wrapped record-not-found of the initial load) and
changes nothing; on a live stored row it succeeds, retains the row with
the deletion marker set, and the row is afterwards invisible to
GetLocation and to LocationSearchByName. -/
theorem C7_delete_location_soft (s : Store) (ID : Nat) :
    ((∀ l ∈ s.locations, l.ID ≠ ID) →
      DeleteLocation s false false ID =
        (some { kind := GormErr.recordNotFound,
                msgs := ["Cannot delete a user we cannot find", "Unable to get location"] },
         s)) ∧
    ((∃ l ∈ s.locations, l.ID = ID ∧ l.Deleted = false) →
      (DeleteLocation s false false ID).1 = none ∧
      (∃ l' ∈ (DeleteLocation s false false ID).2.locations,
         l'.ID = ID ∧ l'.Deleted = true) ∧
      (GetLocation (DeleteLocation s false false ID).2 false ID).2 =
        some { kind := GormErr.recordNotFound, msgs := ["Unable to get location"] } ∧
      (∀ (name : String) (loc : Location),
        loc ∈ (LocationSearchByName (DeleteLocation s false false ID).2 false name).1 →
        loc.ID ≠ ID)) := by
  constructor
  · intro habs
    have hfind : s.locations.find? (fun l => l.ID == ID && !l.Deleted) = none := by
      apply List.find?_eq_none.mpr
      intro l hl
      simp [habs l hl]
    unfold DeleteLocation gormFirstLocation
    simp [hfind, wrapErr, ofGorm]
  · rintro ⟨l, hl, hlid, hldel⟩
    obtain ⟨r, hr⟩ : ∃ r, s.locations.find? (fun x => x.ID == ID && !x.Deleted) = some r := by
      cases hf : s.locations.find? (fun x => x.ID == ID && !x.Deleted) with
      | none =>
        exfalso
        have := List.find?_eq_none.mp hf l hl
        simp [hlid, hldel] at this
      | some r => exact ⟨r, rfl⟩
    have hDL : DeleteLocation s false false ID =
        (none, { s with locations :=
                  s.locations.map (fun x => if x.ID == ID then { x with Deleted := true } else x) }) := by
      unfold DeleteLocation gormFirstLocation gormDeleteLocation
      simp [hr]
    rw [hDL]
    refine ⟨rfl, ?_, ?_, ?_⟩
    · refine ⟨{ l with Deleted := true }, ?_, hlid, rfl⟩
      have himg : (fun x => if x.ID == ID then { x with Deleted := true } else x) l
          = { l with Deleted := true } := by
        simp [hlid]
      exact himg ▸ List.mem_map_of_mem _ hl
    · have hnone : (s.locations.map
          (fun x => if x.ID == ID then { x with Deleted := true } else x)).find?
            (fun x => x.ID == ID && !x.Deleted) = none := by
        apply List.find?_eq_none.mpr
        intro x hx
        obtain ⟨y, hy, rfl⟩ := List.mem_map.mp hx
        by_cases hyid : y.ID = ID
        · simp [hyid]
        · simp [hyid]
      have hget : gormFirstLocation
          { s with locations :=
              s.locations.map (fun x => if x.ID == ID then { x with Deleted := true } else x) }
          false ID = Except.error GormErr.recordNotFound := by
        unfold gormFirstLocation
        rw [if_neg (by simp)]
        rw [hnone]
      unfold GetLocation
      rw [hget]
      simp [wrapErr, ofGorm]
    · intro name loc hloc
      unfold LocationSearchByName gormFindLocationsByName demapLocations at hloc
      simp only [Bool.false_eq_true, if_false, List.mem_map] at hloc
      obtain ⟨row, hrow, rfl⟩ := hloc
      obtain ⟨hrowmem, hcond⟩ := List.mem_filter.mp hrow
      have hrownd : row.Deleted = false := by
        cases h : row.Deleted with
        | false => rfl
        | true => simp [h] at hcond
      obtain ⟨y, hy, heq⟩ := List.mem_map.mp hrowmem
      by_cases hyid : y.ID = ID
      · rw [if_pos (by simp [hyid])] at heq
        rw [← heq] at hrownd
        simp at hrownd
      · rw [if_neg (by simp [hyid])] at heq
        subst heq
        simpa [demapLocation] using hyid

theorem C7_delete_location_soft_witness :
    (∀ l ∈ storeOsloVest.locations, l.ID ≠ 2) ∧
    DeleteLocation storeOsloVest false false 2 =
      (some { kind := GormErr.recordNotFound,
              msgs := ["Cannot delete a user we cannot find", "Unable to get location"] },
       storeOsloVest) ∧
    (∃ l ∈ storeOsloVest.locations, l.ID = 1 ∧ l.Deleted = false) ∧
    (DeleteLocation storeOsloVest false false 1).1 = none :=
  ⟨by decide, (C7_delete_location_soft storeOsloVest 2).1 (by decide), by decide,
   ((C7_delete_location_soft storeOsloVest 1).2 (by decide)).1⟩

/-- Claim C5: updating an existing Location never touches the stored
Coordinates values — whatever the input's coordinates and even on faulty
runs the coordinates table is unchanged — while the stored Location row
keeps its coordinates reference and gets its country-part reference
re-resolved from the input's triple through the deduplication
algorithm. -/
theorem C5_update_coordinates_immutable (s : Store) (l : DbLocation)
    (c : DbCoordinates) (location : Location)
    (hWF : s.WF) (hl : l ∈ s.locations) (hld : l.Deleted = false)
    (hc : c ∈ s.coordinates) (hcid : c.ID = l.CoordinatesReferer) :
    (∀ f : UpdateLocationFaults,
       (UpdateLocation s f l.ID location).2.coordinates = s.coordinates) ∧
    (UpdateLocation s noUpdateFaults l.ID location).1.2 = none ∧
    (∃ l' ∈ (UpdateLocation s noUpdateFaults l.ID location).2.locations,
       l'.ID = l.ID ∧ l'.CoordinatesReferer = l.CoordinatesReferer ∧
       l'.CountrypartReferer =
         (resolveCountryPart s false false
           { ID := 0, AreaName := location.AreaName, PostalCode := location.PostalCode,
             CountryPart := location.CountryPart }).1) := by
  obtain ⟨hn1, hn2, hn3, hidsCP, hidsCo, hidsLoc, hpwCP, hpwCo, hpwLoc⟩ := hWF
  have hfirst : gormFirstLocation s false l.ID = Except.ok l := by
    unfold gormFirstLocation
    rw [if_neg (by simp)]
    rw [find?_keyed (fun x => x.ID) _ s.locations hpwLoc l hl (by simp [hld])
      (fun y hy => by
        have : (y.ID == l.ID) = true := by
          cases hb : (y.ID == l.ID) with
          | true => rfl
          | false => simp [hb] at hy
        simpa using this)]
  obtain ⟨hfrCo, hfrLoc, -, -, -, -⟩ := resolveCountryPart_frame s false false
    { ID := 0, AreaName := location.AreaName, PostalCode := location.PostalCode,
      CountryPart := location.CountryPart }
  have hrel : gormRelatedCoordinates
      (resolveCountryPart s false false
        { ID := 0, AreaName := location.AreaName, PostalCode := location.PostalCode,
          CountryPart := location.CountryPart }).2 false l = Except.ok c := by
    unfold gormRelatedCoordinates
    rw [if_neg (by simp)]
    rw [hfrCo]
    rw [find?_keyed (fun x => x.ID) _ s.coordinates hpwCo c hc (by simp [hcid])
      (fun y hy => by
        have : (y.ID == l.CoordinatesReferer) = true := by
          cases hb : (y.ID == l.CoordinatesReferer) with
          | true => rfl
          | false => simp [hb] at hy
        have hy' := of_decide_eq_true (by simpa using this)
        simp [hy', hcid])]
  have hlid : l.ID ≠ 0 := by
    have := (hidsLoc l hl).1
    omega
  refine ⟨fun f => UpdateLocation_coordinates_frame s f l.ID location, ?_, ?_⟩
  · unfold UpdateLocation
    rw [show noUpdateFaults.first = false from rfl,
        show noUpdateFaults.cpLookup = false from rfl,
        show noUpdateFaults.cpInsert = false from rfl,
        show noUpdateFaults.related = false from rfl,
        show noUpdateFaults.save = false from rfl]
    rw [hfirst]
    dsimp only
    rw [hrel]
    dsimp only
    unfold gormSaveLocation
    rw [if_neg (by simp), if_neg (by simpa using hlid)]
  · unfold UpdateLocation
    rw [show noUpdateFaults.first = false from rfl,
        show noUpdateFaults.cpLookup = false from rfl,
        show noUpdateFaults.cpInsert = false from rfl,
        show noUpdateFaults.related = false from rfl,
        show noUpdateFaults.save = false from rfl]
    rw [hfirst]
    dsimp only
    rw [hrel]
    dsimp only
    unfold gormSaveLocation
    rw [if_neg (by simp), if_neg (by simpa using hlid)]
    dsimp only
    refine ⟨stripAssoc { l with CountrypartReferer :=
        (resolveCountryPart s false false
          { ID := 0, AreaName := location.AreaName, PostalCode := location.PostalCode,
            CountryPart := location.CountryPart }).1 }, ?_, rfl, rfl, rfl⟩
    rw [hfrLoc]
    exact List.mem_map.mpr ⟨l, hl, by simp⟩

theorem C5_update_coordinates_immutable_witness :
    Store.WF storeOsloVest ∧ locRow1 ∈ storeOsloVest.locations ∧
    locRow1.Deleted = false ∧ coordRow1 ∈ storeOsloVest.coordinates ∧
    coordRow1.ID = locRow1.CoordinatesReferer ∧
    (UpdateLocation storeOsloVest noUpdateFaults locRow1.ID sampleLocationInput).1.2 = none :=
  ⟨by decide, by decide, by decide, by decide, by decide,
   (C5_update_coordinates_immutable storeOsloVest locRow1 coordRow1 sampleLocationInput
     (by decide) (by decide) (by decide) (by decide) (by decide)).2.1⟩

/-- Claim C8, counterexample: the search matching is case-insensitive (the
connection's utf8 collation), not a case-sensitive prefix test against the
lower-cased term: searching "oslo" over a store holding only "Oslo Vest"
returns that Location even though the lower-cased term "oslo" is not a
prefix of the stored name "Oslo Vest". -/
theorem C8_search_counterexample :
    (LocationSearchByName storeOsloVest false "oslo").1.map Location.Name = ["Oslo Vest"] ∧
    (lowerStr "oslo").data.isPrefixOf "Oslo Vest".data = false := by
  decide

/-- Claim C8, amended: for every search term free of LIKE wildcards,
LocationSearchByName returns exactly the live Locations whose stored name
has the search term as a case-insensitive prefix; an empty match set is an
empty sequence with no error, and a PersistenceError is returned only when
the underlying query fails. -/
theorem C8_search_prefix_ci (s : Store) (name : String)
    (hw : ∀ ch ∈ name.data.map Char.toLower, ch ≠ '%' ∧ ch ≠ '_') :
    (LocationSearchByName s false name).1 =
      demapLocations (s.locations.filter (fun l => !l.Deleted && ciPrefix name l.Name)) ∧
    (LocationSearchByName s false name).2 = none ∧
    LocationSearchByName s true name =
      ([], some { kind := GormErr.storeRejected, msgs := ["Unable to find locations"] }) := by
  refine ⟨?_, ?_, ?_⟩
  · unfold LocationSearchByName gormFindLocationsByName
    rw [if_neg (by simp)]
    have hfc : s.locations.filter (fun l => !l.Deleted && mysqlLike (lowerStr name ++ "%") l.Name)
        = s.locations.filter (fun l => !l.Deleted && ciPrefix name l.Name) := by
      apply List.filter_congr
      intro x _
      rw [mysqlLike_ciPrefix name hw x.Name]
    rw [hfc]
  · unfold LocationSearchByName gormFindLocationsByName
    rw [if_neg (by simp)]
  · unfold LocationSearchByName gormFindLocationsByName
    rw [if_pos rfl]
    simp [wrapErr, ofGorm]

theorem C8_search_prefix_ci_witness :
    (∀ ch ∈ "oslo".data.map Char.toLower, ch ≠ '%' ∧ ch ≠ '_') ∧
    (LocationSearchByName storeOsloVest false "oslo").1 =
      demapLocations (storeOsloVest.locations.filter
        (fun l => !l.Deleted && ciPrefix "oslo" l.Name)) :=
  ⟨by decide, (C8_search_prefix_ci storeOsloVest "oslo" (by decide)).1⟩

/-- Claim C2: CreateLocation persists the Coordinates sub-record first —
if that insert is rejected it returns a PersistenceError wrapping the
cause and nothing else has happened, whatever the later fault flags — then
resolves the CountryPart, then persists the Location row; on a clean run
it returns no error, the returned Location's coordinates reference is the
identifier of the Coordinates row created in the first step, and the
stored Location row carries that reference together with the country-part
identifier the deduplication algorithm yields. -/
theorem C2_create_location_steps (s : Store) (location : Location) :
    (∀ b2 b3 b4 : Bool,
      CreateLocation s { coordInsert := true, cpLookup := b2, cpInsert := b3, locInsert := b4 }
          location =
        ((location, some { kind := GormErr.storeRejected,
                           msgs := ["Unable to store coordinates"] }), s)) ∧
    (CreateLocation s noCreateFaults location).1.2 = none ∧
    (CreateLocation s noCreateFaults location).1.1.CoordinatesID = s.nextCoordinatesID ∧
    (∃ c ∈ (CreateLocation s noCreateFaults location).2.coordinates,
       c.ID = s.nextCoordinatesID ∧ c.Longitude = location.Longitude ∧
       c.Lattitude = location.Lattitude) ∧
    (∃ l ∈ (CreateLocation s noCreateFaults location).2.locations,
       l.CoordinatesReferer = s.nextCoordinatesID ∧
       l.CountrypartReferer =
         (resolveCountryPart s false false (mapLocation location).CountryPart).1) := by
  refine ⟨fun b2 b3 b4 => rfl, ?_, ?_, ?_, ?_⟩
  · simp only [CreateLocation, noCreateFaults, gormCreateCoordinates, gormCreateLocation,
      mapLocation, stripAssoc, demapLocation]
    simp
  · simp only [CreateLocation, noCreateFaults, gormCreateCoordinates, gormCreateLocation,
      mapLocation, stripAssoc, demapLocation]
    simp
  · simp only [CreateLocation, noCreateFaults, gormCreateCoordinates, gormCreateLocation,
      mapLocation, stripAssoc, demapLocation, eq_self_iff_true, if_true,
      Bool.false_eq_true, if_false]
    rw [(resolveCountryPart_frame _ false false _).1]
    refine ⟨{ ID := s.nextCoordinatesID, Longitude := location.Longitude,
              Lattitude := location.Lattitude }, ?_, rfl, rfl, rfl⟩
    simp
  · simp only [CreateLocation, noCreateFaults, gormCreateCoordinates, gormCreateLocation,
      mapLocation, stripAssoc, demapLocation, eq_self_iff_true, if_true,
      Bool.false_eq_true, if_false]
    refine ⟨_, List.mem_append_right _ (List.mem_singleton_self _), rfl, ?_⟩
    show (resolveCountryPart
        { s with
          coordinates := s.coordinates ++
            [{ ID := s.nextCoordinatesID, Longitude := location.Longitude,
               Lattitude := location.Lattitude }],
          nextCoordinatesID := s.nextCoordinatesID ⊔ (s.nextCoordinatesID + 1) }
        false false
        { ID := 0, AreaName := location.AreaName, PostalCode := location.PostalCode,
          CountryPart := location.CountryPart }).1 =
      (resolveCountryPart s false false
        { ID := 0, AreaName := location.AreaName, PostalCode := location.PostalCode,
          CountryPart := location.CountryPart }).1
    exact (resolveCountryPart_congr
      { s with
        coordinates := s.coordinates ++
          [{ ID := s.nextCoordinatesID, Longitude := location.Longitude,
             Lattitude := location.Lattitude }],
        nextCoordinatesID := s.nextCoordinatesID ⊔ (s.nextCoordinatesID + 1) }
      s false false
      { ID := 0, AreaName := location.AreaName, PostalCode := location.PostalCode,
        CountryPart := location.CountryPart } rfl rfl).1

end Flightlog
